import Mathlib

/-!
Verification of the moolchand-voice-agent repository
(src/outbound-caller-python/agent.py and app.py).

The Python code is a thin asynchronous callback layer over an external
agent framework.  We embed it shallowly: every function of the source is
translated to a pure Lean function that returns its Python return value
(wrapped in `Except` where the source can raise) together with the ordered
list of externally visible effects it performs.  An effect appears in the
trace at the point in program order where the corresponding `await`
returns (or, for a request that raises, where the request was issued).
Outcomes decided by the outside world (whether a SIP request raises,
what a subprocess returns) are explicit parameters of the embedding.
-/

/-- Externally visible effects performed by agent.py, in program order. -/
inductive Effect
  | logInfo (msg : String)
  | logError (msg : String)
  | connect
  | constructAgent
  | startSessionTask
  | generateReply (instructions : String)
  | transferSIPRequest (roomName participantIdentity transferTo : String)
  | createSIPRequest (roomName : String) (trunkId : Option String)
      (callTo sipNumber participantIdentity : String)
  | awaitSessionStarted
  | waitForParticipant (identity : String)
  | setParticipant (identity : String)
  | waitForPlayout
  | sleepSeconds (n : Nat)
  | deleteRoom (roomName : String)
  | shutdown
  deriving DecidableEq

/-- Python exceptions that the repository code itself can raise.
`attributeErrorNoneIdentity` models the AttributeError raised by
evaluating `self.participant.identity` when `self.participant` is `None`;
`jsonDecodeError` models `json.loads` failing; `keyError k` models a
missing dictionary key `k`. -/
inductive PyExn
  | attributeErrorNoneIdentity
  | jsonDecodeError
  | keyError (key : String)
  deriving DecidableEq

/-- The `dial_info` dictionary passed in job metadata (agent.py lines
193-198): a phone number to dial and a number to transfer to. -/
structure DialInfo where
  phone_number : String
  transfer_to : String
  deriving DecidableEq

/-- Instance state of the `OutboundCaller` agent: the remote participant
reference (set by `set_participant`, initially `None`) and `dial_info`. -/
structure AgentState where
  participant : Option String
  dial_info : DialInfo
  deriving DecidableEq

/-- `OutboundCaller.hangup` (agent.py lines 89-97): deletes the job
context room. -/
def hangup (roomName : String) : List Effect :=
  [Effect.deleteRoom roomName]

/-- String form of the AttributeError raised by `None.identity`, as it
appears when interpolated into a log message. -/
def noneIdentityError : String :=
  "\x27NoneType\x27 object has no attribute \x27identity\x27"

/-- Body of the `except Exception` handler in `transfer_call` (agent.py
lines 125-130): log the error, generate an apology reply, hang up. -/
def transferErrorTail (roomName errText : String) : List Effect :=
  Effect.logError ("error transferring call: " ++ errText) ::
  Effect.generateReply "there was an error transferring the call." ::
  hangup roomName

/-- `OutboundCaller.transfer_call` (agent.py lines 99-130).
`sipError = some e` means `transfer_sip_participant` raised an exception
whose string form is `e`; `none` means it succeeded.  If the participant
is unset, building the request raises AttributeError inside the `try`,
which the `except Exception` clause also catches.  The first component is
the Python return value (`None` for the fall-through paths). -/
def transfer_call (st : AgentState) (roomName : String)
    (sipError : Option String) : Option String × List Effect :=
  if st.dial_info.transfer_to = "" then
    (some "cannot transfer call", [])
  else
    match st.participant with
    | none =>
        (none,
         Effect.logInfo ("transferring call to " ++ st.dial_info.transfer_to) ::
         Effect.generateReply "let the user know you\x27ll be transferring them" ::
         transferErrorTail roomName noneIdentityError)
    | some pid =>
        match sipError with
        | some e =>
            (none,
             Effect.logInfo ("transferring call to " ++ st.dial_info.transfer_to) ::
             Effect.generateReply "let the user know you\x27ll be transferring them" ::
             Effect.transferSIPRequest roomName pid
               ("tel:" ++ st.dial_info.transfer_to) ::
             transferErrorTail roomName e)
        | none =>
            (none,
             [Effect.logInfo ("transferring call to " ++ st.dial_info.transfer_to),
              Effect.generateReply "let the user know you\x27ll be transferring them",
              Effect.transferSIPRequest roomName pid
                ("tel:" ++ st.dial_info.transfer_to),
              Effect.logInfo ("transferred call to " ++ st.dial_info.transfer_to)])

/-- `OutboundCaller.end_call` (agent.py lines 132-142): log, wait for any
current speech to play out, then hang up.  `currentSpeech` is whether
`ctx.session.current_speech` is truthy. -/
def end_call (st : AgentState) (roomName : String) (currentSpeech : Bool) :
    Except PyExn Unit × List Effect :=
  match st.participant with
  | none => (Except.error PyExn.attributeErrorNoneIdentity, [])
  | some pid =>
      (Except.ok (),
       Effect.logInfo ("ending the call for " ++ pid) ::
       (if currentSpeech then [Effect.waitForPlayout] else []) ++
       hangup roomName)

/-- Return value of `look_up_availability`: the dictionary
`{"available_times": [...]}`. -/
structure AvailabilityResult where
  available_times : List String
  deriving DecidableEq

/-- `OutboundCaller.look_up_availability` (agent.py lines 144-161): log,
sleep 3 seconds, return the fixed slot list. -/
def look_up_availability (st : AgentState) (date : String) :
    Except PyExn AvailabilityResult × List Effect :=
  match st.participant with
  | none => (Except.error PyExn.attributeErrorNoneIdentity, [])
  | some pid =>
      (Except.ok ⟨["1pm", "2pm", "3pm"]⟩,
       [Effect.logInfo ("looking up availability for " ++ pid ++ " on " ++ date),
        Effect.sleepSeconds 3])

/-- `OutboundCaller.confirm_appointment` (agent.py lines 163-180): log and
return a fixed string.  The method assigns no attribute of `self`, so the
post-state (first component) always equals the pre-state. -/
def confirm_appointment (st : AgentState) (date time : String) :
    AgentState × Except PyExn String × List Effect :=
  match st.participant with
  | none => (st, Except.error PyExn.attributeErrorNoneIdentity, [])
  | some pid =>
      (st, Except.ok "reservation confirmed",
       [Effect.logInfo ("confirming appointment for " ++ pid ++ " on " ++
          date ++ " at " ++ time)])

/-- `OutboundCaller.detected_answering_machine` (agent.py lines 182-186):
log and hang up. -/
def detected_answering_machine (st : AgentState) (roomName : String) :
    Except PyExn Unit × List Effect :=
  match st.participant with
  | none => (Except.error PyExn.attributeErrorNoneIdentity, [])
  | some pid =>
      (Except.ok (),
       Effect.logInfo ("detected answering machine for " ++ pid) ::
       hangup roomName)

/-- A `livekit.api.TwirpError` as used by the entrypoint handler:
its message and the two SIP metadata fields it reads. -/
structure TwirpError where
  message : String
  sip_status_code : String
  sip_status : String
  deriving DecidableEq

/-- First-match lookup in a parsed JSON object, modelling Python
dictionary subscription `d[k]` (a JSON object has unique keys). -/
def lookupKey : List (String × String) → String → Option String
  | [], _ => none
  | (k, v) :: rest, key => if k = key then some v else lookupKey rest key

/-- The hard-coded caller id passed as `sip_number` (agent.py line 239). -/
def sipNumber : String := "+17345214522"

/-- `entrypoint` (agent.py lines 189-259).  `metadata` is the result of
`json.loads(ctx.job.metadata)`: `none` models invalid JSON, `some kvs`
the parsed object.  `dialError = some e` means `create_sip_participant`
raised `TwirpError e`.  The first component is how the coroutine ends:
`Except.error` means an exception propagated out uncaught (the
`except api.TwirpError` clause catches only the dial failure). -/
def entrypoint (roomName : String) (trunkId : Option String)
    (metadata : Option (List (String × String)))
    (dialError : Option TwirpError) :
    Except PyExn Unit × List Effect :=
  match metadata with
  | none =>
      (Except.error PyExn.jsonDecodeError,
       [Effect.logInfo ("connecting to room " ++ roomName), Effect.connect])
  | some kvs =>
      match lookupKey kvs "phone_number" with
      | none =>
          (Except.error (PyExn.keyError "phone_number"),
           [Effect.logInfo ("connecting to room " ++ roomName), Effect.connect])
      | some phone =>
          match dialError with
          | some e =>
              (Except.ok (),
               [Effect.logInfo ("connecting to room " ++ roomName),
                Effect.connect,
                Effect.constructAgent,
                Effect.startSessionTask,
                Effect.createSIPRequest roomName trunkId phone sipNumber phone,
                Effect.logError ("error creating SIP participant: " ++
                  e.message ++ ", SIP status: " ++ e.sip_status_code ++ " " ++
                  e.sip_status),
                Effect.shutdown])
          | none =>
              (Except.ok (),
               [Effect.logInfo ("connecting to room " ++ roomName),
                Effect.connect,
                Effect.constructAgent,
                Effect.startSessionTask,
                Effect.createSIPRequest roomName trunkId phone sipNumber phone,
                Effect.awaitSessionStarted,
                Effect.waitForParticipant phone,
                Effect.logInfo ("participant joined: " ++ phone),
                Effect.setParticipant phone])

/-- Predicate picking out room-deletion effects, for exactly-once counts. -/
def isDeleteRoom : Effect → Bool
  | Effect.deleteRoom _ => true
  | _ => false

/-!
Embedding of app.py: the Streamlit form.  Clicking the Dispatch Call
button runs the handler at app.py lines 13-50; we embed the handler as a
function of the two text fields and the subprocess outcome, returning the
ordered list of UI effects it performs.
-/

/-- Streamlit UI effects performed by the Dispatch Call handler, plus the
subprocess invocation itself. -/
inductive AppEffect
  | showError (msg : String)
  | showInfo (msg : String)
  | showSuccess (msg : String)
  | showWarning (msg : String)
  | runCommand (cmd : List String)
  deriving DecidableEq

/-- Outcome of `subprocess.run(command, ..., check=True)`:
normal completion, `CalledProcessError`, `FileNotFoundError`, or any
other exception (app.py lines 39-50). -/
inductive CmdOutcome
  | completed (stdout stderr : String)
  | calledProcessError (stderr stdout : String)
  | fileNotFound
  | otherError (msg : String)
  deriving DecidableEq

/-- The characters stripped by Python `str.strip()`, i.e. those with
`str.isspace()` true: tab through carriage return (0x09-0x0d), the file,
group, record and unit separators (0x1c-0x1f), space, next line (0x85),
no-break space (0xa0), Ogham space mark (0x1680), the Unicode space
separators 0x2000-0x200a, line separator (0x2028), paragraph separator
(0x2029), narrow no-break space (0x202f), medium mathematical space
(0x205f) and ideographic space (0x3000). -/
def pyIsSpace (c : Char) : Bool :=
  (0x09 ≤ c.toNat && c.toNat ≤ 0x0d) ||
  (0x1c ≤ c.toNat && c.toNat ≤ 0x1f) ||
  c.toNat = 0x20 || c.toNat = 0x85 || c.toNat = 0xa0 ||
  c.toNat = 0x1680 ||
  (0x2000 ≤ c.toNat && c.toNat ≤ 0x200a) ||
  c.toNat = 0x2028 || c.toNat = 0x2029 ||
  c.toNat = 0x202f || c.toNat = 0x205f || c.toNat = 0x3000

/-- Python `str.strip()`: remove leading and trailing whitespace. -/
def pyStrip (s : String) : String :=
  String.mk (((s.toList.dropWhile pyIsSpace).reverse.dropWhile pyIsSpace).reverse)

/-- The metadata string built by the f-string at app.py line 18. -/
def metadataString (phone transferTo : String) : String :=
  "\x7b\"phone_number\": \"" ++ phone ++ "\", \"transfer_to\": \"" ++
    transferTo ++ "\"\x7d"

/-- The `lk dispatch create` command list built at app.py lines 22-31. -/
def dispatchCommand (phone transferTo : String) : List String :=
  ["lk", "dispatch", "create", "--new-room", "--agent-name",
   "outbound-caller", "--metadata", metadataString phone transferTo]

/-- The Dispatch Call button handler (app.py lines 13-50): reject an
empty (after stripping) phone number, otherwise show an info message, run
the dispatch command, and report its outcome. -/
def dispatch_call_click (phone transferTo : String) (outcome : CmdOutcome) :
    List AppEffect :=
  if pyStrip phone = "" then
    [AppEffect.showError "Please enter a phone number to call."]
  else
    AppEffect.showInfo ("Dispatching call to " ++ phone ++ "...") ::
    AppEffect.runCommand (dispatchCommand phone transferTo) ::
    (match outcome with
     | CmdOutcome.completed stdout stderr =>
         AppEffect.showSuccess ("Call dispatched successfully! \nOutput:\n" ++
           stdout) ::
         (if stderr = "" then []
          else [AppEffect.showWarning
                  ("Warnings/Errors from dispatch command:\n" ++ stderr)])
     | CmdOutcome.calledProcessError stderr stdout =>
         [AppEffect.showError ("Failed to dispatch call. Error:\n" ++ stderr ++
            "\n" ++ stdout)]
     | CmdOutcome.fileNotFound =>
         [AppEffect.showError ("LiveKit CLI (lk) not found. Please ensure " ++
            "it\x27s installed and in your system\x27s PATH.")]
     | CmdOutcome.otherError msg =>
         [AppEffect.showError ("An unexpected error occurred: " ++ msg)])

/-!
Theorems settling the claims, in claim order.
-/

/-- Claim C1: for every invocation of the transfer_call tool with a
non-empty transfer_to number in which the SIP transfer request raises an
exception, the call is torn down by deleting the room, and that room
deletion happens exactly once per such failing invocation. -/
theorem C1_transfer_failure_deletes_room_once
    (st : AgentState) (roomName pid e : String)
    (hne : st.dial_info.transfer_to ≠ "")
    (hp : st.participant = some pid) :
    (transfer_call st roomName (some e)).2.countP isDeleteRoom = 1 ∧
    Effect.deleteRoom roomName ∈ (transfer_call st roomName (some e)).2 := by
  simp [transfer_call, hne, hp, transferErrorTail, hangup, isDeleteRoom,
    List.countP_cons]

/-- Concrete instance of C1. -/
theorem C1_transfer_failure_deletes_room_once_witness :
    (⟨some "+918980579954", ⟨"+918980579954", "+17345214522"⟩⟩ :
        AgentState).dial_info.transfer_to ≠ "" ∧
    (⟨some "+918980579954", ⟨"+918980579954", "+17345214522"⟩⟩ :
        AgentState).participant = some "+918980579954" ∧
    ((transfer_call
        ⟨some "+918980579954", ⟨"+918980579954", "+17345214522"⟩⟩
        "room-1" (some "sip failed")).2.countP isDeleteRoom = 1 ∧
      Effect.deleteRoom "room-1" ∈
        (transfer_call
          ⟨some "+918980579954", ⟨"+918980579954", "+17345214522"⟩⟩
          "room-1" (some "sip failed")).2) :=
  ⟨by decide, rfl,
   C1_transfer_failure_deletes_room_once
     ⟨some "+918980579954", ⟨"+918980579954", "+17345214522"⟩⟩
     "room-1" "+918980579954" "sip failed" (by decide) rfl⟩

/-- Claim C9: for every invocation of the transfer_call tool in which the
configured transfer_to value is empty (falsy), the tool returns the string
"cannot transfer call" and performs no effect at all: no transfer
request, no generated reply, and no room deletion. -/
theorem C9_empty_transfer_to_rejected
    (st : AgentState) (roomName : String) (sipError : Option String)
    (h0 : st.dial_info.transfer_to = "") :
    (transfer_call st roomName sipError).1 = some "cannot transfer call" ∧
    (transfer_call st roomName sipError).2 = [] := by
  simp [transfer_call, h0]

/-- Concrete instance of C9. -/
theorem C9_empty_transfer_to_rejected_witness :
    (⟨some "+918980579954", ⟨"+918980579954", ""⟩⟩ :
        AgentState).dial_info.transfer_to = "" ∧
    ((transfer_call ⟨some "+918980579954", ⟨"+918980579954", ""⟩⟩
        "room-1b" none).1 = some "cannot transfer call" ∧
     (transfer_call ⟨some "+918980579954", ⟨"+918980579954", ""⟩⟩
        "room-1b" none).2 = []) :=
  ⟨rfl,
   C9_empty_transfer_to_rejected
     ⟨some "+918980579954", ⟨"+918980579954", ""⟩⟩ "room-1b" none rfl⟩

/-- Claim C4: for every input date string, the look_up_availability tool
returns exactly the fixed list of available times ["1pm","2pm","3pm"],
and the returned value does not depend on the date argument. -/
theorem C4_availability_is_fixed
    (st : AgentState) (pid : String) (hp : st.participant = some pid)
    (date : String) :
    (look_up_availability st date).1 = Except.ok ⟨["1pm", "2pm", "3pm"]⟩ ∧
    ∀ d1 d2 : String,
      (look_up_availability st d1).1 = (look_up_availability st d2).1 := by
  refine ⟨by simp [look_up_availability, hp], ?_⟩
  intro d1 d2
  simp [look_up_availability, hp]

/-- Concrete instance of C4. -/
theorem C4_availability_is_fixed_witness :
    (⟨some "+918980579954", ⟨"+918980579954", "+17345214522"⟩⟩ :
        AgentState).participant = some "+918980579954" ∧
    ((look_up_availability
        ⟨some "+918980579954", ⟨"+918980579954", "+17345214522"⟩⟩
        "2026-10-13").1 = Except.ok ⟨["1pm", "2pm", "3pm"]⟩ ∧
     ∀ d1 d2 : String,
       (look_up_availability
          ⟨some "+918980579954", ⟨"+918980579954", "+17345214522"⟩⟩ d1).1 =
       (look_up_availability
          ⟨some "+918980579954", ⟨"+918980579954", "+17345214522"⟩⟩ d2).1) :=
  ⟨rfl,
   C4_availability_is_fixed
     ⟨some "+918980579954", ⟨"+918980579954", "+17345214522"⟩⟩
     "+918980579954" rfl "2026-10-13"⟩

/-- Claim C5: for every input date string and time string, the
confirm_appointment tool returns the fixed string "reservation confirmed",
leaves the agent state unchanged, and performs nothing but a log line
(persists nothing). -/
theorem C5_confirm_is_fixed_and_pure
    (st : AgentState) (pid : String) (hp : st.participant = some pid)
    (date time : String) :
    (confirm_appointment st date time).2.1 =
      Except.ok "reservation confirmed" ∧
    (confirm_appointment st date time).1 = st ∧
    (confirm_appointment st date time).2.2 =
      [Effect.logInfo ("confirming appointment for " ++ pid ++ " on " ++
        date ++ " at " ++ time)] := by
  simp [confirm_appointment, hp]

/-- Concrete instance of C5. -/
theorem C5_confirm_is_fixed_and_pure_witness :
    (⟨some "+918980579954", ⟨"+918980579954", "+17345214522"⟩⟩ :
        AgentState).participant = some "+918980579954" ∧
    ((confirm_appointment
        ⟨some "+918980579954", ⟨"+918980579954", "+17345214522"⟩⟩
        "next Tuesday" "3pm").2.1 = Except.ok "reservation confirmed" ∧
     (confirm_appointment
        ⟨some "+918980579954", ⟨"+918980579954", "+17345214522"⟩⟩
        "next Tuesday" "3pm").1 =
       ⟨some "+918980579954", ⟨"+918980579954", "+17345214522"⟩⟩ ∧
     (confirm_appointment
        ⟨some "+918980579954", ⟨"+918980579954", "+17345214522"⟩⟩
        "next Tuesday" "3pm").2.2 =
       [Effect.logInfo ("confirming appointment for +918980579954 on " ++
         "next Tuesday at 3pm")]) :=
  ⟨rfl,
   C5_confirm_is_fixed_and_pure
     ⟨some "+918980579954", ⟨"+918980579954", "+17345214522"⟩⟩
     "+918980579954" rfl "next Tuesday" "3pm"⟩

/-- Claim C6: every invocation of the end_call tool ends with a request
to delete the current room, and any in-progress agent speech is waited on
(played out) first. -/
theorem C6_end_call_ends_with_room_deletion
    (st : AgentState) (roomName pid : String) (currentSpeech : Bool)
    (hp : st.participant = some pid) :
    (∃ pre, (end_call st roomName currentSpeech).2 =
      pre ++ [Effect.deleteRoom roomName]) ∧
    (currentSpeech = true →
      Effect.waitForPlayout ∈ (end_call st roomName currentSpeech).2) := by
  cases currentSpeech
  · exact ⟨⟨[Effect.logInfo ("ending the call for " ++ pid)],
      by simp [end_call, hp, hangup]⟩, by simp⟩
  · exact ⟨⟨[Effect.logInfo ("ending the call for " ++ pid),
        Effect.waitForPlayout], by simp [end_call, hp, hangup]⟩,
      fun _ => by simp [end_call, hp, hangup]⟩

/-- Concrete instance of C6. -/
theorem C6_end_call_ends_with_room_deletion_witness :
    (⟨some "+918980579954", ⟨"+918980579954", "+17345214522"⟩⟩ :
        AgentState).participant = some "+918980579954" ∧
    ((∃ pre, (end_call
        ⟨some "+918980579954", ⟨"+918980579954", "+17345214522"⟩⟩
        "room-6" true).2 = pre ++ [Effect.deleteRoom "room-6"]) ∧
     (true = true →
       Effect.waitForPlayout ∈ (end_call
         ⟨some "+918980579954", ⟨"+918980579954", "+17345214522"⟩⟩
         "room-6" true).2)) :=
  ⟨rfl,
   C6_end_call_ends_with_room_deletion
     ⟨some "+918980579954", ⟨"+918980579954", "+17345214522"⟩⟩
     "room-6" "+918980579954" true rfl⟩

/-- Claim C7: every invocation of the detected_answering_machine tool
ends the call by deleting the current room: its whole trace is the log
line followed by the room deletion. -/
theorem C7_voicemail_deletes_room
    (st : AgentState) (roomName pid : String)
    (hp : st.participant = some pid) :
    (detected_answering_machine st roomName).2 =
      [Effect.logInfo ("detected answering machine for " ++ pid),
       Effect.deleteRoom roomName] := by
  simp [detected_answering_machine, hp, hangup]

/-- Concrete instance of C7. -/
theorem C7_voicemail_deletes_room_witness :
    (⟨some "+918980579954", ⟨"+918980579954", "+17345214522"⟩⟩ :
        AgentState).participant = some "+918980579954" ∧
    (detected_answering_machine
       ⟨some "+918980579954", ⟨"+918980579954", "+17345214522"⟩⟩
       "room-7").2 =
      [Effect.logInfo "detected answering machine for +918980579954",
       Effect.deleteRoom "room-7"] :=
  ⟨rfl,
   C7_voicemail_deletes_room
     ⟨some "+918980579954", ⟨"+918980579954", "+17345214522"⟩⟩
     "room-7" "+918980579954" rfl⟩

/-- Claim C2: in every run of the entrypoint in which the outbound dial
succeeds, both the conversational session start and the outbound dial
have completed (been awaited) strictly before the wait_for_participant
lookup appears in the trace. -/
theorem C2_dial_and_session_awaited_before_lookup
    (roomName : String) (trunkId : Option String)
    (kvs : List (String × String)) (phone : String)
    (hphone : lookupKey kvs "phone_number" = some phone)
    (i : Nat)
    (hi : (entrypoint roomName trunkId (some kvs) none).2[i]? =
      some (Effect.waitForParticipant phone)) :
    ∃ j k : Nat, j < i ∧ k < i ∧
      (entrypoint roomName trunkId (some kvs) none).2[j]? =
        some (Effect.createSIPRequest roomName trunkId phone sipNumber phone) ∧
      (entrypoint roomName trunkId (some kvs) none).2[k]? =
        some Effect.awaitSessionStarted := by
  simp only [entrypoint, hphone] at hi ⊢
  rcases i with _|_|_|_|_|_|_|_|_|i <;> simp at hi
  exact ⟨4, 5, by omega, by omega, by simp, by simp⟩

/-- Concrete instance of C2. -/
theorem C2_dial_and_session_awaited_before_lookup_witness :
    lookupKey [("phone_number", "+918980579954")] "phone_number" =
      some "+918980579954" ∧
    (entrypoint "room-2" (some "trunk-1")
      (some [("phone_number", "+918980579954")]) none).2[6]? =
      some (Effect.waitForParticipant "+918980579954") ∧
    (∃ j k : Nat, j < 6 ∧ k < 6 ∧
      (entrypoint "room-2" (some "trunk-1")
        (some [("phone_number", "+918980579954")]) none).2[j]? =
        some (Effect.createSIPRequest "room-2" (some "trunk-1")
          "+918980579954" sipNumber "+918980579954") ∧
      (entrypoint "room-2" (some "trunk-1")
        (some [("phone_number", "+918980579954")]) none).2[k]? =
        some Effect.awaitSessionStarted) :=
  ⟨rfl, rfl,
   C2_dial_and_session_awaited_before_lookup "room-2" (some "trunk-1")
     [("phone_number", "+918980579954")] "+918980579954" rfl 6 rfl⟩

/-- Claim C3: for every run of the entrypoint in which the outbound dial
raises a TwirpError, the error is logged and the call is torn down (the
job is shut down). -/
theorem C3_dial_failure_logged_and_torn_down
    (roomName : String) (trunkId : Option String)
    (kvs : List (String × String)) (phone : String) (e : TwirpError)
    (hphone : lookupKey kvs "phone_number" = some phone) :
    Effect.logError ("error creating SIP participant: " ++ e.message ++
        ", SIP status: " ++ e.sip_status_code ++ " " ++ e.sip_status) ∈
      (entrypoint roomName trunkId (some kvs) (some e)).2 ∧
    Effect.shutdown ∈ (entrypoint roomName trunkId (some kvs) (some e)).2 := by
  simp [entrypoint, hphone]

/-- Concrete instance of C3. -/
theorem C3_dial_failure_logged_and_torn_down_witness :
    lookupKey [("phone_number", "+918980579954")] "phone_number" =
      some "+918980579954" ∧
    (Effect.logError ("error creating SIP participant: busy, " ++
        "SIP status: 486 Busy Here") ∈
      (entrypoint "room-3" (some "trunk-1")
        (some [("phone_number", "+918980579954")])
        (some ⟨"busy", "486", "Busy Here"⟩)).2 ∧
     Effect.shutdown ∈
      (entrypoint "room-3" (some "trunk-1")
        (some [("phone_number", "+918980579954")])
        (some ⟨"busy", "486", "Busy Here"⟩)).2) :=
  ⟨rfl,
   C3_dial_failure_logged_and_torn_down "room-3" (some "trunk-1")
     [("phone_number", "+918980579954")] "+918980579954"
     ⟨"busy", "486", "Busy Here"⟩ rfl⟩

/-- Claim C10: for every job whose metadata is not valid JSON or whose
parsed metadata lacks the "phone_number" key, the entrypoint raises
(propagates an exception uncaught, in particular not caught by the
TwirpError handler) before the agent is constructed, before the session
is started, and before any dial request is made. -/
theorem C10_bad_metadata_raises_before_setup
    (roomName : String) (trunkId : Option String)
    (metadata : Option (List (String × String)))
    (dialError : Option TwirpError)
    (h : metadata = none ∨
      ∃ kvs, metadata = some kvs ∧ lookupKey kvs "phone_number" = none) :
    (∃ e : PyExn,
      (entrypoint roomName trunkId metadata dialError).1 = Except.error e) ∧
    Effect.constructAgent ∉ (entrypoint roomName trunkId metadata dialError).2 ∧
    Effect.startSessionTask ∉
      (entrypoint roomName trunkId metadata dialError).2 ∧
    (∀ rn t p sn pi, Effect.createSIPRequest rn t p sn pi ∉
      (entrypoint roomName trunkId metadata dialError).2) ∧
    Effect.shutdown ∉ (entrypoint roomName trunkId metadata dialError).2 ∧
    (∀ m, Effect.logError m ∉
      (entrypoint roomName trunkId metadata dialError).2) := by
  rcases h with h | ⟨kvs, hm, hk⟩
  · subst h; simp [entrypoint]
  · subst hm; simp [entrypoint, hk]

/-- Concrete instance of C10 (invalid JSON metadata). -/
theorem C10_bad_metadata_raises_before_setup_witness :
    (∃ e : PyExn, (entrypoint "room-10" none none none).1 = Except.error e) ∧
    Effect.constructAgent ∉ (entrypoint "room-10" none none none).2 ∧
    Effect.startSessionTask ∉ (entrypoint "room-10" none none none).2 ∧
    Effect.shutdown ∉ (entrypoint "room-10" none none none).2 :=
  ⟨(C10_bad_metadata_raises_before_setup "room-10" none none none
      (Or.inl rfl)).1,
   (C10_bad_metadata_raises_before_setup "room-10" none none none
      (Or.inl rfl)).2.1,
   (C10_bad_metadata_raises_before_setup "room-10" none none none
      (Or.inl rfl)).2.2.1,
   (C10_bad_metadata_raises_before_setup "room-10" none none none
      (Or.inl rfl)).2.2.2.2.1⟩

/-- Claim C8, counterexample: the whitespace-only phone number " " is a
non-empty string, yet clicking Dispatch Call only shows the error message
and never runs the dispatch command, refuting the clause "for every
non-empty phone number, the dispatch command is invoked". -/
theorem C8_counterexample_whitespace_phone :
    " " ≠ "" ∧
    dispatch_call_click " " "+17345214522" (CmdOutcome.completed "" "") =
      [AppEffect.showError "Please enter a phone number to call."] := by
  constructor
  · decide
  · have h : pyStrip " " = "" := by decide
    simp [dispatch_call_click, h]

/-- Claim C8 as amended: for every phone number that is empty after
stripping whitespace, clicking Dispatch Call shows exactly the error
message (so the dispatch command is not run); for every phone number that
is non-empty after stripping whitespace, the dispatch command is
invoked. -/
theorem C8_dispatch_guard
    (phone transferTo : String) (outcome : CmdOutcome) :
    (pyStrip phone = "" →
      dispatch_call_click phone transferTo outcome =
        [AppEffect.showError "Please enter a phone number to call."]) ∧
    (pyStrip phone ≠ "" →
      AppEffect.runCommand (dispatchCommand phone transferTo) ∈
        dispatch_call_click phone transferTo outcome) := by
  constructor
  · intro h; simp [dispatch_call_click, h]
  · intro h; simp [dispatch_call_click, h, List.mem_cons]

/-- Concrete instances of the two sides of the amended C8. -/
theorem C8_dispatch_guard_witness :
    pyStrip " " = "" ∧
    dispatch_call_click " " "+17345214522" (CmdOutcome.completed "" "") =
      [AppEffect.showError "Please enter a phone number to call."] ∧
    pyStrip "+918980579954" ≠ "" ∧
    AppEffect.runCommand (dispatchCommand "+918980579954" "+17345214522") ∈
      dispatch_call_click "+918980579954" "+17345214522"
        (CmdOutcome.completed "" "") :=
  ⟨by decide,
   (C8_dispatch_guard " " "+17345214522" (CmdOutcome.completed "" "")).1
     (by decide),
   by decide,
   (C8_dispatch_guard "+918980579954" "+17345214522"
     (CmdOutcome.completed "" "")).2 (by decide)⟩
